import Mathlib

/-!
Verification development for the meteora-invent fee-distribution
payment-as-swap engine.  The JavaScript sources are shallowly embedded as
executable Lean definitions; network calls and signing keys are passed as
explicit parameters (oracles), machine numbers are modelled as `Int`/`Nat`
(lamport amounts) and `ℚ` (SOL / UI amounts), and JavaScript exceptions are
modelled with `Except String`.
-/

namespace Spec2Proof

/-! ## JavaScript value and truthiness model

Jupiter quote responses carry amounts either as JSON strings, as numbers, or
not at all; the source validates them with JavaScript truthiness
(`!quote.inAmount`).  `JSVal` models exactly those three shapes. -/

inductive JSVal where
  | undef : JSVal
  | num : Int → JSVal
  | str : String → JSVal
deriving DecidableEq, Repr

/-- JavaScript truthiness for a `JSVal`: `undefined`, `0` and `""` are falsy. -/
def JSVal.truthy : JSVal → Bool
  | .undef => false
  | .num n => n != 0
  | .str s => s != ""

/-! ## String helpers (models of the JS string library functions used) -/

/-- Model of JavaScript `String.prototype.includes`: `sub` occurs
contiguously somewhere in `s`. -/
def jsIncludes (s sub : String) : Bool :=
  let l := s.toList
  let p := sub.toList
  (List.range (l.length + 1)).any (fun i => p.isPrefixOf (l.drop i))

/-! ## base58 decoding (model of the `bs58` library used by `solana.js` and
`part_000`).  A byte is a `Nat` (< 256 for well-formed data). -/

/-- The bitcoin base58 alphabet used by `bs58`. -/
def BASE58_ALPHABET : List Char :=
  "123456789ABCDEFGHJKLMNPQRSTUVWXYZabcdefghijkmnopqrstuvwxyz".toList

/-- Digit value of one base58 character, `none` for a non-alphabet character. -/
def b58Digit (c : Char) : Option Nat :=
  BASE58_ALPHABET.indexOf? c

/-- Minimal big-endian byte representation, fuelled so that it reduces by
computation (`fuel = n` always suffices since a number has at most `n`
base-256 digits). -/
def natToBytesBEAux : Nat → Nat → List Nat
  | 0, _ => []
  | fuel + 1, n => if n = 0 then [] else natToBytesBEAux fuel (n / 256) ++ [n % 256]

/-- Minimal big-endian byte representation of a natural number (empty for 0). -/
def natToBytesBE (n : Nat) : List Nat := natToBytesBEAux n n

/-- Model of `bs58.decode`: fails iff some character is outside the alphabet;
leading `'1'` characters decode to leading zero bytes. -/
def base58Decode (s : String) : Option (List Nat) := do
  let digits ← s.toList.mapM b58Digit
  let zeros := (s.toList.takeWhile (fun c => c = '1')).length
  let n := digits.foldl (fun acc d => acc * 58 + d) 0
  pure (List.replicate zeros 0 ++ natToBytesBE n)

/-! ## Minimal JSON numeric-array parser

Model of `JSON.parse` restricted to arrays of non-negative integer literals,
which is the credential shape the sources accept on the JSON route
(`"[12,34,...]"`).  Any input that is not such an array parses to `none`
(in the source, a non-array JSON value would in any case fail the subsequent
64-byte secret-key length check, producing the same error outcome). -/

def skipSpaces (cs : List Char) : List Char := cs.dropWhile (fun c => c = ' ')

/-- Parse a leading non-negative decimal integer. -/
def parseNatPrefix (cs : List Char) : Option (Nat × List Char) :=
  let ds := cs.takeWhile Char.isDigit
  if ds.isEmpty then none
  else some (ds.foldl (fun a c => a * 10 + (c.toNat - 48)) 0, cs.drop ds.length)

/-- Parse a comma-separated list of integers (at least one); fuelled. -/
def parseElems : Nat → List Char → Option (List Nat × List Char)
  | 0, _ => none
  | fuel + 1, cs =>
    match parseNatPrefix (skipSpaces cs) with
    | none => none
    | some (n, rest) =>
      match skipSpaces rest with
      | ',' :: rest2 =>
        match parseElems fuel rest2 with
        | some (ns, r) => some (n :: ns, r)
        | none => none
      | other => some ([n], other)

/-- Model of `JSON.parse` on a numeric-array credential string. -/
def parseJsonNumArray (s : String) : Option (List Nat) :=
  match skipSpaces s.toList with
  | '[' :: rest =>
    match skipSpaces rest with
    | ']' :: tail => if (skipSpaces tail).isEmpty then some [] else none
    | rest1 =>
      match parseElems (rest1.length + 1) rest1 with
      | some (ns, r) =>
        match skipSpaces r with
        | ']' :: tail => if (skipSpaces tail).isEmpty then some ns else none
        | _ => none
      | none => none
  | _ => none


/-! ## SHA-512 and ed25519 (models of the cryptography behind
`Keypair.fromSecretKey`)

`@solana/web3.js`'s `Keypair.fromSecretKey` validates, besides the 64-byte
length, that bytes 32..64 of the secret key equal the ed25519 public key
derived from the 32-byte seed, throwing `provided secretKey is invalid`
otherwise.  The derivation (SHA-512 of the seed, clamping, scalar
multiplication on edwards25519, point compression) is implemented here
executably; it reproduces the RFC 8032 test vectors.  Bytes are `Nat`s,
64-bit words are `Nat`s reduced mod `2 ^ 64`. -/

def mask64 : Nat := 2 ^ 64 - 1

def w64 (n : Nat) : Nat := n % (2 ^ 64)

def rotr64 (x n : Nat) : Nat := w64 ((x >>> n) ||| (x <<< (64 - n)))

/-- Integer cube root by bisection (fuelled so it reduces by computation). -/
def icbrt (n : Nat) : Nat :=
  ((List.range 256).foldl
    (fun p _ =>
      let mid := (p.1 + p.2) / 2
      if mid = p.1 then p
      else if mid ^ 3 ≤ n then (mid, p.2) else (p.1, mid))
    (0, n + 1)).1

/-- Integer square root by bisection (fuelled so it reduces by computation). -/
def isqrtB (n : Nat) : Nat :=
  ((List.range 256).foldl
    (fun p _ =>
      let mid := (p.1 + p.2) / 2
      if mid = p.1 then p
      else if mid * mid ≤ n then (mid, p.2) else (p.1, mid))
    (0, n + 1)).1

def primes80 : List Nat :=
  [2, 3, 5, 7, 11, 13, 17, 19, 23, 29, 31, 37, 41, 43, 47, 53, 59, 61, 67, 71,
   73, 79, 83, 89, 97, 101, 103, 107, 109, 113, 127, 131, 137, 139, 149, 151,
   157, 163, 167, 173, 179, 181, 191, 193, 197, 199, 211, 223, 227, 229, 233,
   239, 241, 251, 257, 263, 269, 271, 277, 281, 283, 293, 307, 311, 313, 317,
   331, 337, 347, 349, 353, 359, 367, 373, 379, 383, 389, 397, 401, 409]

/-- The SHA-512 round constants: fractional parts of the cube roots of the
first 80 primes. -/
def sha512K : List Nat := primes80.map (fun p => icbrt (p * 2 ^ 192) % 2 ^ 64)

/-- The SHA-512 initial hash value: fractional parts of the square roots of
the first 8 primes. -/
def sha512H0 : List Nat := (primes80.take 8).map (fun p => isqrtB (p * 2 ^ 128) % 2 ^ 64)

def beBytes (count n : Nat) : List Nat :=
  (List.range count).reverse.map (fun i => (n >>> (8 * i)) % 256)

def beWord (bytes : List Nat) : Nat := bytes.foldl (fun acc b => acc * 256 + b) 0

def chunksAux (n : Nat) : Nat → List Nat → List (List Nat)
  | 0, _ => []
  | _, [] => []
  | fuel + 1, l => l.take n :: chunksAux n fuel (l.drop n)

/-- Split a byte list into chunks of `n` bytes. -/
def chunks (n : Nat) (l : List Nat) : List (List Nat) := chunksAux n (l.length + 1) l

/-- SHA-512 message padding: `0x80`, zeros, and the 128-bit message bit
length, to a multiple of 128 bytes. -/
def sha512Pad (msg : List Nat) : List Nat :=
  let L := msg.length
  let k := (128 - ((L + 17) % 128)) % 128
  msg ++ [128] ++ List.replicate k 0 ++ beBytes 16 (8 * L)

def ssig0 (x : Nat) : Nat := rotr64 x 1 ^^^ rotr64 x 8 ^^^ (x >>> 7)
def ssig1 (x : Nat) : Nat := rotr64 x 19 ^^^ rotr64 x 61 ^^^ (x >>> 6)
def bsig0 (x : Nat) : Nat := rotr64 x 28 ^^^ rotr64 x 34 ^^^ rotr64 x 39
def bsig1 (x : Nat) : Nat := rotr64 x 14 ^^^ rotr64 x 18 ^^^ rotr64 x 41
def chf (x y z : Nat) : Nat := (x &&& y) ^^^ ((x ^^^ mask64) &&& z)
def majf (x y z : Nat) : Nat := (x &&& y) ^^^ (x &&& z) ^^^ (y &&& z)

/-- The SHA-512 message schedule: extend 16 words to 80. -/
def sha512Schedule (ws : List Nat) : List Nat :=
  (List.range 64).foldl
    (fun w _ =>
      let n := w.length
      let g := fun (i : Nat) => w.getD (n - i) 0
      w ++ [w64 (ssig1 (g 2) + g 7 + ssig0 (g 15) + g 16)])
    ws

/-- The eight 64-bit working variables of the SHA-512 compression. -/
structure Word8 where
  a : Nat
  b : Nat
  c : Nat
  d : Nat
  e : Nat
  f : Nat
  g : Nat
  h : Nat
deriving DecidableEq, Repr

/-- One SHA-512 compression round; `wk` is the pair `(W_t, K_t)`. -/
def sha512Round (st : Word8) (wk : Nat × Nat) : Word8 :=
  let T1 := w64 (st.h + bsig1 st.e + chf st.e st.f st.g + wk.2 + wk.1)
  let T2 := w64 (bsig0 st.a + majf st.a st.b st.c)
  ⟨w64 (T1 + T2), st.a, st.b, st.c, w64 (st.d + T1), st.e, st.f, st.g⟩

def sha512Rounds (st : Word8) (l : List (Nat × Nat)) : Word8 := l.foldl sha512Round st

/-- Compress one 128-byte block into the running hash (eight words). -/
def sha512Compress (H : List Nat) (block : List Nat) : List Nat :=
  let st0 : Word8 := ⟨H.getD 0 0, H.getD 1 0, H.getD 2 0, H.getD 3 0,
    H.getD 4 0, H.getD 5 0, H.getD 6 0, H.getD 7 0⟩
  let W := sha512Schedule ((chunks 8 block).map beWord)
  let st := sha512Rounds st0 (W.zip sha512K)
  [w64 (st0.a + st.a), w64 (st0.b + st.b), w64 (st0.c + st.c), w64 (st0.d + st.d),
   w64 (st0.e + st.e), w64 (st0.f + st.f), w64 (st0.g + st.g), w64 (st0.h + st.h)]

/-- SHA-512 of a byte list (64 bytes out). -/
def sha512 (msg : List Nat) : List Nat :=
  ((chunks 128 (sha512Pad msg)).foldl sha512Compress sha512H0).foldr
    (fun h acc => beBytes 8 h ++ acc) []

/-! edwards25519 arithmetic in extended homogeneous coordinates. -/

def edP : Nat := 2 ^ 255 - 19

def fadd (a b : Nat) : Nat := (a + b) % edP
def fsub (a b : Nat) : Nat := ((a % edP) + edP - (b % edP)) % edP
def fmul (a b : Nat) : Nat := (a * b) % edP

def powModAux : Nat → Nat → Nat → Nat → Nat
  | 0, _, _, acc => acc
  | fuel + 1, b, e, acc =>
    if e = 0 then acc
    else powModAux fuel (fmul b b) (e / 2) (if e % 2 = 1 then fmul acc b else acc)

def fpow (b e : Nat) : Nat := powModAux 300 (b % edP) e (1 % edP)

def finv (a : Nat) : Nat := fpow a (edP - 2)

/-- The curve constant `d = -121665/121666`. -/
def edD : Nat := fmul (edP - 121665) (finv 121666)

def edD2 : Nat := fmul 2 edD

def edSqrtM1 : Nat := fpow 2 ((edP - 1) / 4)

/-- Recover the x-coordinate with the given parity from a y-coordinate
(RFC 8032 section 5.1.3). -/
def xRecover (y sign : Nat) : Nat :=
  let u := fsub (fmul y y) 1
  let v := fadd (fmul edD (fmul y y)) 1
  let c := fmul (fmul u (fpow v 3)) (fpow (fmul u (fpow v 7)) ((edP - 5) / 8))
  let x := if fmul v (fmul c c) = u % edP then c else fmul c edSqrtM1
  if x % 2 = sign % 2 then x else fsub 0 x

def edBy : Nat := fmul 4 (finv 5)
def edBx : Nat := xRecover edBy 0

abbrev EdPoint := Nat × Nat × Nat × Nat

/-- Point addition (RFC 8032 section 5.1.4). -/
def edAdd (P Q : EdPoint) : EdPoint :=
  match P, Q with
  | (x1, y1, z1, t1), (x2, y2, z2, t2) =>
    let A := fmul (fsub y1 x1) (fsub y2 x2)
    let B := fmul (fadd y1 x1) (fadd y2 x2)
    let C := fmul (fmul t1 edD2) t2
    let D := fmul (fmul z1 2) z2
    let E := fsub B A
    let F := fsub D C
    let G := fadd D C
    let H := fadd B A
    (fmul E F, fmul G H, fmul F G, fmul E H)

/-- Point doubling (RFC 8032 section 5.1.4). -/
def edDouble (P : EdPoint) : EdPoint :=
  match P with
  | (x1, y1, z1, _) =>
    let A := fmul x1 x1
    let B := fmul y1 y1
    let C := fmul 2 (fmul z1 z1)
    let H := fadd A B
    let E := fsub H (fmul (fadd x1 y1) (fadd x1 y1))
    let G := fsub A B
    let F := fadd C G
    (fmul E F, fmul G H, fmul F G, fmul E H)

def edBase : EdPoint := (edBx, edBy, 1, fmul edBx edBy)

/-- One double-and-add step for scalar bit `i`. -/
def edStep (s : Nat) (P : EdPoint) (acc : EdPoint) (i : Nat) : EdPoint :=
  let acc2 := edDouble acc
  if s.testBit i then edAdd acc2 P else acc2

def edRun (s : Nat) (P : EdPoint) (acc : EdPoint) (l : List Nat) : EdPoint :=
  l.foldl (edStep s P) acc

/-- Scalar multiplication, processing bits 254 down to 0. -/
def edScalarMul (s : Nat) (P : EdPoint) : EdPoint :=
  edRun s P (0, 1, 1, 0) (List.range 255).reverse

def leToNat (bytes : List Nat) : Nat := bytes.foldr (fun b acc => acc * 256 + b) 0

def natToLe (count n : Nat) : List Nat :=
  (List.range count).map (fun i => (n >>> (8 * i)) % 256)

/-- Clamp the lower 32 hash bytes into an ed25519 scalar: clear bits 0-2
and 255, set bit 254. -/
def edClamp (k : List Nat) : Nat :=
  ((leToNat k / 8) * 8) % (2 ^ 254) + 2 ^ 254

/-- Compress a point to its 32-byte encoding: little-endian y with the
parity of x in the top bit. -/
def ed25519Encode (A : EdPoint) : List Nat :=
  match A with
  | (x, y, z, _) =>
    let zinv := finv z
    natToLe 32 (fmul y zinv + (fmul x zinv % 2) * 2 ^ 255)

/-- The ed25519 public key of a 32-byte seed (RFC 8032 section 5.1.5). -/
def ed25519PublicKey (seed : List Nat) : List Nat :=
  ed25519Encode (edScalarMul (edClamp ((sha512 seed).take 32)) edBase)

/-! ## Key & address resolution (`solana.js`, `part_000`) -/

/-- A parsed signing keypair.  A Solana secret key is 64 bytes: a 32-byte
seed followed by the 32-byte public key. -/
structure Keypair where
  secretKey : List Nat
deriving DecidableEq, Repr

/-- The public key carried in bytes 32..64 of the secret key. -/
def Keypair.publicKey (kp : Keypair) : List Nat := kp.secretKey.drop 32

/-- Model of `@solana/web3.js` `Keypair.fromSecretKey`: the underlying
ed25519 library throws `bad secret key size` on any length other than 64,
and `fromSecretKey` then verifies that bytes 32..64 equal the public key
derived from the 32-byte seed, throwing `provided secretKey is invalid`
otherwise. -/
def Keypair.fromSecretKey (bytes : List Nat) : Except String Keypair :=
  if bytes.length = 64 then
    if bytes.drop 32 = ed25519PublicKey (bytes.take 32) then .ok ⟨bytes⟩
    else .error ("provided secretKey is invalid")
  else .error ("bad secret key size")

/-- Inner-library error text stand-in for a failed `bs58.decode`. -/
def nonBase58Msg : String := "Non-base58 character"

/-- Embedding of `parsePrivateKey` from
`src/scripts/fee-distribution/utils/solana.js` (lines 17-24): base58-decode
only, wrapping any failure as an invalid-format error. -/
def parsePrivateKey (s : String) : Except String Keypair :=
  match base58Decode s with
  | none => .error ("Invalid private key format: " ++ nonBase58Msg)
  | some bytes =>
    match Keypair.fromSecretKey bytes with
    | .ok kp => .ok kp
    | .error e => .error ("Invalid private key format: " ++ e)

/-- Embedding of `parseKeypairFromPrivateKey` from `src/unnamed/part_000`
(lines 244-259): try base58 first; if that whole branch throws, try a JSON
numeric array; else fail with the malformed-credential message. -/
def parseKeypairFromPrivateKey (s : String) : Except String Keypair :=
  match (match base58Decode s with
         | some bytes => Keypair.fromSecretKey bytes
         | none => .error nonBase58Msg) with
  | .ok kp => .ok kp
  | .error _ =>
    match (match parseJsonNumArray s with
           | some arr => Keypair.fromSecretKey arr
           | none => .error ("not valid JSON")) with
    | .ok kp => .ok kp
    | .error _ =>
      .error ("Invalid private key format. Expected base58 string or JSON array of numbers")

/-- An address-only principal, as produced by `new PublicKey(string)`. -/
structure PublicKey where
  base58 : String
deriving DecidableEq, Repr

/-- Embedding of `parsePublicKey` from `solana.js` (lines 29-35):
`new PublicKey(s)` succeeds iff `s` is base58 of exactly 32 bytes. -/
def parsePublicKey (s : String) : Except String PublicKey :=
  match base58Decode s with
  | none => .error ("Invalid public key format: " ++ nonBase58Msg)
  | some bytes =>
    if bytes.length = 32 then .ok ⟨s⟩
    else .error ("Invalid public key format: Invalid public key input")

/-! ## Quote client (`jupiter.js` `getQuote`, lines 100-124, and
`jupiter-custom-tx-silent.js` `getQuote`, lines 131-151)

Both functions fetch JSON from the aggregator; the network fetch is elided
and the already-parsed JSON body is the argument.  The `jupiter.js` variant
validates the two amounts with JS truthiness; the silent variant returns the
body unvalidated. -/

structure QuoteResponse where
  inAmount : JSVal
  outAmount : JSVal
deriving DecidableEq, Repr

/-- Embedding of the post-fetch body of `JupiterPaymentsAsSwap.getQuote`
(`jupiter.js` lines 116-123): reject when `!quote.inAmount || !quote.outAmount`. -/
def getQuoteValidated (quote : QuoteResponse) : Except String QuoteResponse :=
  if !quote.inAmount.truthy || !quote.outAmount.truthy then
    .error ("Invalid quote response from Jupiter")
  else .ok quote

/-- Embedding of the post-fetch body of
`JupiterCustomTxBuilderSilent.getQuote` (`jupiter-custom-tx-silent.js`
lines 145-150): the parsed JSON is returned with no validation at all. -/
def silentGetQuote (quote : QuoteResponse) : Except String QuoteResponse :=
  .ok quote

/-! ## Instruction assembly and the dual-signer transaction builder
(`jupiter-custom-tx-silent.js` `buildCustomTransaction`, lines 186-259) -/

/-- One account reference inside a raw aggregator instruction. -/
structure RawAccountMeta where
  pubkey : String
  isSigner : Bool
  isWritable : Bool
deriving DecidableEq, Repr

/-- A raw (JSON) instruction as returned by the aggregator: program id and
account pubkeys in base58, payload in base64. -/
structure RawInstruction where
  programId : String
  accounts : List RawAccountMeta
  data : String
deriving DecidableEq, Repr

/-- A decoded account reference. -/
structure AccountMeta where
  pubkey : String
  isSigner : Bool
  isWritable : Bool
deriving DecidableEq, Repr

/-- Lenient base64 decoding, model of `Buffer.from(s, "base64")`: characters
outside the alphabet are ignored, then 4 symbols become 3 bytes with the
usual handling of a 2- or 3-symbol tail. -/
def b64Digit (c : Char) : Option Nat :=
  ("ABCDEFGHIJKLMNOPQRSTUVWXYZabcdefghijklmnopqrstuvwxyz0123456789+/".toList).indexOf? c

def b64Groups : List Nat → List Nat
  | a :: b :: c :: d :: rest =>
    (a * 4 + b / 16) :: ((b % 16) * 16 + c / 4) :: ((c % 4) * 64 + d) :: b64Groups rest
  | [a, b] => [a * 4 + b / 16]
  | [a, b, c] => [a * 4 + b / 16, (b % 16) * 16 + c / 4]
  | _ => []

def base64Decode (s : String) : List Nat :=
  b64Groups (s.toList.filterMap b64Digit)

/-- The ledger's native instruction object. -/
structure TransactionInstruction where
  programId : String
  keys : List AccountMeta
  data : List Nat
deriving DecidableEq, Repr

/-- Embedding of `deserializeInstruction` (`jupiter-custom-tx-silent.js`
lines 197-207). -/
def deserializeInstruction (instruction : RawInstruction) : TransactionInstruction :=
  { programId := instruction.programId
    keys := instruction.accounts.map (fun key =>
      { pubkey := key.pubkey, isSigner := key.isSigner, isWritable := key.isWritable })
    data := base64Decode instruction.data }

/-- The aggregator's `/swap-instructions` response body, as destructured at
`jupiter-custom-tx-silent.js` lines 187-194.  Absent (`undefined`) optional
parts are `none`; the instruction lists default to `[]`. -/
structure SwapInstructionsResponse where
  tokenLedgerInstruction : Option RawInstruction
  computeBudgetInstructions : List RawInstruction
  setupInstructions : List RawInstruction
  swapInstruction : RawInstruction
  cleanupInstruction : Option RawInstruction
  addressLookupTableAddresses : List String
deriving DecidableEq, Repr

/-- An address lookup table account resolved from the network
(`AddressLookupTableAccount`); `state` carries the deserialized account
data opaquely. -/
structure AddressLookupTableAccount where
  key : String
  state : List Nat
deriving DecidableEq, Repr

/-- Embedding of `getAddressLookupTableAccounts`
(`jupiter-custom-tx-silent.js` lines 264-283).  `lookup` models
`connection.getMultipleAccountsInfo` pointwise: `none` is a table address
that no longer resolves to an account.  The source `reduce` pushes an
entry only when `accountInfo` is non-null. -/
def getAddressLookupTableAccounts (keys : List String)
    (lookup : String → Option (List Nat)) : List AddressLookupTableAccount :=
  if keys.isEmpty then []
  else
    let accountInfos := keys.map lookup
    (accountInfos.zip keys).foldl
      (fun acc p =>
        match p.1 with
        | some data => acc ++ [⟨p.2, data⟩]
        | none => acc)
      []

/-- A compiled v0 transaction message. -/
structure TransactionMessageV0 where
  payerKey : List Nat
  recentBlockhash : String
  instructions : List TransactionInstruction
  addressLookupTableAccounts : List AddressLookupTableAccount
deriving DecidableEq, Repr

/-- A versioned transaction together with the signer public keys whose
signatures it carries, in signature order (actual ed25519 signatures are
outside the embedding; a signature is identified by its signer). -/
structure BuiltTransaction where
  message : TransactionMessageV0
  signatures : List (List Nat)
deriving DecidableEq, Repr

/-- Embedding of `buildCustomTransaction` (`jupiter-custom-tx-silent.js`
lines 186-259): compute-budget, setup, token-ledger, swap, cleanup pushed in
that order (each optional part only when present), payer set to the platform
wallet, then `transaction.sign([platformWallet, feeWallet])`. -/
def buildCustomTransaction (instructions : SwapInstructionsResponse)
    (feeWallet platformWallet : Keypair)
    (lookup : String → Option (List Nat)) (blockhash : String) : BuiltTransaction :=
  let addressLookupTableAccounts :=
    getAddressLookupTableAccounts instructions.addressLookupTableAddresses lookup
  let txInstructions :=
    (if instructions.computeBudgetInstructions.length > 0 then
      instructions.computeBudgetInstructions.map deserializeInstruction
     else [])
    ++ (if instructions.setupInstructions.length > 0 then
      instructions.setupInstructions.map deserializeInstruction
     else [])
    ++ (match instructions.tokenLedgerInstruction with
        | some i => [deserializeInstruction i]
        | none => [])
    ++ [deserializeInstruction instructions.swapInstruction]
    ++ (match instructions.cleanupInstruction with
        | some i => [deserializeInstruction i]
        | none => [])
  { message :=
      { payerKey := platformWallet.publicKey
        recentBlockhash := blockhash
        instructions := txInstructions
        addressLookupTableAccounts := addressLookupTableAccounts }
    signatures := [platformWallet.publicKey, feeWallet.publicKey] }

/-! ## The two `executeSwap` signing procedures in
`src/scripts/fee-distribution/utils/jupiter.js`

The file contains two copies of class `JupiterPaymentsAsSwap`.  The first
(lite-api, lines 177-221) signs with `[platformWallet, feeWallet]` on both
the versioned and the legacy path.  The second (quote-api, lines 409-450)
signs a versioned transaction with `[feeWallet]` only, and on the legacy
path sets `feePayer = platformWallet.publicKey` and then calls
`transaction.sign(feeWallet)` (which in web3.js replaces the signature list
with exactly the given signers). -/

/-- A deserialized aggregator-built swap transaction before local signing:
versioned or legacy, with its current payer key and signature list. -/
structure SwapTx where
  isVersioned : Bool
  feePayer : List Nat
  signatures : List (List Nat)
deriving DecidableEq, Repr

/-- Signing step of the first (lite-api) `executeSwap` (`jupiter.js`
lines 194-200). -/
def executeSwapSignLite (tx : SwapTx) (feeWallet platformWallet : Keypair) : SwapTx :=
  if tx.isVersioned then
    { tx with signatures := [platformWallet.publicKey, feeWallet.publicKey] }
  else
    { tx with signatures := [platformWallet.publicKey, feeWallet.publicKey] }

/-- Signing step of the second (quote-api) `executeSwap` (`jupiter.js`
lines 425-437): the versioned path signs with the fee wallet only. -/
def executeSwapSignQuoteApi (tx : SwapTx) (feeWallet platformWallet : Keypair) : SwapTx :=
  if tx.isVersioned then
    { tx with signatures := [feeWallet.publicKey] }
  else
    { tx with
        feePayer := platformWallet.publicKey
        signatures := [feeWallet.publicKey] }

/-! ## Parameter validation (`jupiter.js` `validateSwapParams`,
lines 226-248; the copy in `part_008` lines 226-249 is identical)

`params` fields may be absent (`undefined`); string fields are falsy when
absent or empty, the numeric `solAmount` is falsy when absent or zero.  The
source's `for (const field of required)` loop is unrolled in the required
order; the function only reads `params`. -/

structure SwapParams where
  feeWalletKey : Option String
  assetVaultPubkey : Option String
  tokenMint : Option String
  solAmount : Option Int
  platformWalletKey : Option String
deriving DecidableEq, Repr

/-- JS truthiness of an optional string field. -/
def truthyS : Option String → Bool
  | none => false
  | some s => s != ""

/-- JS truthiness of an optional numeric field. -/
def truthyI : Option Int → Bool
  | none => false
  | some n => n != 0

/-- Embedding of `validateSwapParams` (`jupiter.js` lines 226-248). -/
def validateSwapParams (params : SwapParams) : Except String Unit :=
  if truthyS params.feeWalletKey = false then
    .error ("Missing required parameter: feeWalletKey")
  else if truthyS params.assetVaultPubkey = false then
    .error ("Missing required parameter: assetVaultPubkey")
  else if truthyS params.tokenMint = false then
    .error ("Missing required parameter: tokenMint")
  else if truthyI params.solAmount = false then
    .error ("Missing required parameter: solAmount")
  else if truthyS params.platformWalletKey = false then
    .error ("Missing required parameter: platformWalletKey")
  else if params.solAmount.getD 0 ≤ 0 then
    .error ("SOL amount must be greater than 0")
  else
    match parsePrivateKey (params.feeWalletKey.getD "") with
    | .error e => .error ("Parameter validation failed: " ++ e)
    | .ok _ =>
      match parsePrivateKey (params.platformWalletKey.getD "") with
      | .error e => .error ("Parameter validation failed: " ++ e)
      | .ok _ =>
        match parsePublicKey (params.assetVaultPubkey.getD "") with
        | .error e => .error ("Parameter validation failed: " ++ e)
        | .ok _ =>
          match parsePublicKey (params.tokenMint.getD "") with
          | .error e => .error ("Parameter validation failed: " ++ e)
          | .ok _ => .ok ()

/-! ## Retry combinator (`solana.js` `retry`, lines 126-143)

The operation is modelled as `fn : Nat → Except String α`, giving the
outcome of its `i`-th invocation (0-indexed).  A `RetryTrace` records the
final result, how many times `fn` was invoked, and the backoff delays slept
(in order).  The loop body for index `i` schedules `baseDelay * 2 ^ i` only
when `i < maxRetries - 1`, i.e. only when further indices remain. -/

instance {ε α : Type} [DecidableEq ε] [DecidableEq α] : DecidableEq (Except ε α)
  | .error e, .error f =>
    if h : e = f then .isTrue (by rw [h]) else .isFalse (by simp [h])
  | .error _, .ok _ => .isFalse (by simp)
  | .ok _, .error _ => .isFalse (by simp)
  | .ok a, .ok b =>
    if h : a = b then .isTrue (by rw [h]) else .isFalse (by simp [h])

structure RetryTrace (α : Type) where
  result : Except String α
  callCount : Nat
  delays : List Nat
deriving DecidableEq, Repr

/-- The terminal error message thrown after the loop. -/
def retryFailMsg (maxRetries : Nat) (lastErr : String) : String :=
  "Failed after " ++ toString maxRetries ++ " attempts: " ++ lastErr

/-- The `for` loop of `retry`, iterating over the remaining indices; the
source guard `i < maxRetries - 1` holds exactly when further indices
remain, i.e. when `rest ≠ []`. -/
def retryGo (fn : Nat → Except String α) (maxRetries baseDelay : Nat) :
    List Nat → String → RetryTrace α
  | [], lastErr => ⟨.error (retryFailMsg maxRetries lastErr), 0, []⟩
  | i :: rest, _ =>
    match fn i with
    | .ok v => ⟨.ok v, 1, []⟩
    | .error e =>
      let t := retryGo fn maxRetries baseDelay rest e
      ⟨t.result, t.callCount + 1,
        (if rest = [] then [] else [baseDelay * 2 ^ i]) ++ t.delays⟩

/-- Embedding of `retry(fn, maxRetries, baseDelay)`.  The JS `lastError`
starts out `undefined`; the initial `""` here is only reachable when
`maxRetries = 0`. -/
def retry (fn : Nat → Except String α) (maxRetries baseDelay : Nat) : RetryTrace α :=
  retryGo fn maxRetries baseDelay (List.range maxRetries) ""

/-! ## Submission controller with size fallback
(`jupiter-custom-tx-silent.js` `executeSwapWithCustomPayer`, lines 25-126)

One full quote→build→submit attempt is modelled by the oracle
`attempt : Option Nat → Except String α`, its argument being the
`maxAccounts` route-complexity constraint passed down to `getQuote`
(`none` = unconstrained).  A recursive call made with `maxAccounts = limit`
rethrows its own errors unchanged (its internal fallback guard
`!maxAccounts` is false), so it is exactly `attempt (some limit)`. -/

/-- The three fixed route-complexity tiers tried on a size failure
(`fallbackLimits`, line 95). -/
def fallbackLimits : List Nat := [40, 30, 25]

/-- The terminal message thrown after all tiers fail with size errors
(line 120); `orig` is the message of the original unconstrained error. -/
def sizeExhaustedMsg (orig : String) : String :=
  "Transaction too large even with account limits. Original error: " ++ orig

/-- The `for (const limit of fallbackLimits)` loop (lines 97-117): `none`
means the loop fell through (every tier failed with a size error). -/
def tryFallbackLimits (attempt : Option Nat → Except String α) :
    List Nat → Option (Except String α)
  | [] => none
  | limit :: rest =>
    match attempt (some limit) with
    | .ok v => some (.ok v)
    | .error e =>
      if jsIncludes e ("too large") then tryFallbackLimits attempt rest
      else some (.error e)

/-- Embedding of the submit-and-fallback control flow of
`executeSwapWithCustomPayer` when entered unconstrained
(`maxAccounts = null`). -/
def executeSwapWithCustomPayer (attempt : Option Nat → Except String α) :
    Except String α :=
  match attempt none with
  | .ok v => .ok v
  | .error e =>
    if jsIncludes e ("too large") then
      match tryFallbackLimits attempt fallbackLimits with
      | some r => r
      | none => .error (sizeExhaustedMsg e)
    else .error e

/-! ## Result reporting (`executeSwapWithCustomPayer` success value,
lines 85-90, and `swap-fee-to-asset-silent.js` `main`, lines 63-79) -/

/-- The success value returned by `executeSwapWithCustomPayer`
(`jupiter-custom-tx-silent.js` lines 85-90). -/
structure SwapSuccess where
  success : Bool
  signature : String
  inputAmount : JSVal
  outputAmount : JSVal
deriving DecidableEq, Repr

def swapSuccess (quote : QuoteResponse) (signature : String) : SwapSuccess :=
  { success := true
    signature := signature
    inputAmount := quote.inAmount
    outputAmount := quote.outAmount }

/-- The success response assembled by `main` in
`swap-fee-to-asset-silent.js` (lines 67-79); balances are in lamports and
the two `Spent` fields divide the snapshot deltas by `1e9`. -/
structure MainSuccessResponse where
  signature : String
  inputAmount : JSVal
  outputAmount : JSVal
  solAmountSpent : ℚ
  feeWalletSpent : ℚ
  platformWalletFeesSpent : ℚ
deriving DecidableEq, Repr

def mainSuccessResponse (result : SwapSuccess) (parsedSolAmount : ℚ)
    (initialFeeBalance finalFeeBalance initialPlatformBalance finalPlatformBalance : Int) :
    MainSuccessResponse :=
  { signature := result.signature
    inputAmount := result.inputAmount
    outputAmount := result.outputAmount
    solAmountSpent := parsedSolAmount
    feeWalletSpent := ((initialFeeBalance : ℚ) - (finalFeeBalance : ℚ)) / 1000000000
    platformWalletFeesSpent :=
      ((initialPlatformBalance : ℚ) - (finalPlatformBalance : ℚ)) / 1000000000 }

/-! ## Timed-out confirmation reconciliation (`part_002`
`transferNFTWithMetaplex`, lines 436-453)

`umiResult` is the outcome of `transferV1(...).sendAndConfirm` (`.ok sig`
or `.error message`); `balanceAfterUi` is the source token account's
`value.uiAmount` re-read after the 3-second wait.  The outer catch falls
back to `transferNFTWithManualInstruction`, which unconditionally throws. -/

/-- Model of the regex `/Signature ([A-Za-z0-9]\x7b87,88\x7d)/`: at the
first position where `"Signature "` is followed by a run of at least 87
alphanumeric characters, capture up to 88 of them. -/
def sigCandidate (cs : List Char) : Option String :=
  let pre := ("Signature ").toList
  if pre.isPrefixOf cs then
    let run := (cs.drop pre.length).takeWhile (fun c => c.isAlpha || c.isDigit)
    if run.length ≥ 87 then some (String.mk (run.take 88)) else none
  else none

def extractSignatureFrom : List Char → Option String
  | [] => none
  | c :: cs =>
    match sigCandidate (c :: cs) with
    | some s => some s
    | none => extractSignatureFrom cs

def extractSignature (msg : String) : Option String :=
  extractSignatureFrom msg.toList

/-- The message thrown by `transferNFTWithManualInstruction` (line 470). -/
def manualInstructionErrorMsg : String :=
  "Manual instruction building not yet implemented. The NFT appears to be frozen and requires specialized handling. Please try transferring it through Phantom wallet first to unfreeze it, then run this script again."

/-- Embedding of the try/catch structure of `transferNFTWithMetaplex`
around `sendAndConfirm` (lines 427-462). -/
def transferNFTWithMetaplex (umiResult : Except String String)
    (balanceAfterUi : ℚ) : Except String String :=
  let inner : Except String String :=
    match umiResult with
    | .ok sig => .ok sig
    | .error msg =>
      if jsIncludes msg ("expired") || jsIncludes msg ("block height") then
        if balanceAfterUi = 0 then
          .ok (match extractSignature msg with
               | some s => s
               | none => "transfer_successful_but_signature_unknown")
        else .error msg
      else .error msg
  match inner with
  | .ok sig => .ok sig
  | .error _ => .error manualInstructionErrorMsg

/-! # Theorems -/

set_option maxRecDepth 100000

/-! ## Shared concrete sample data -/

/-- A 64-byte funder keypair (seed 0s, public key bytes all 1). -/
def kpFunder : Keypair := ⟨List.replicate 32 0 ++ List.replicate 32 1⟩

/-- A 64-byte fee-payer keypair (seed 0s, public key bytes all 2). -/
def kpPayer : Keypair := ⟨List.replicate 32 0 ++ List.replicate 32 2⟩

/-- A sample main swap instruction. -/
def sampleSwapInstr : RawInstruction :=
  ⟨"JUP6LkbZbjS1jKKwapdHNy74zcZ3tLUZoi5QNyVTaV4", [], "AQID"⟩

/-! ## Concrete key-derivation values for the zero seed

`decide` cannot evaluate the whole 255-step scalar multiplication in one
kernel reduction, so the derivation of the zero seed's public key is
checkpointed: each literal below is verified from the previous one by a
shallow `decide`, and the pieces are glued with `List.take_append_drop`. -/

def wsLit : List Nat :=
  [0, 0, 0, 0, 9223372036854775808, 0, 0, 0,
   0, 0, 0, 0, 0, 0, 0, 256]

def WLit : List Nat :=
  [0, 0, 0, 0,
   9223372036854775808, 0, 0, 0,
   0, 0, 0, 0,
   0, 0, 0, 256,
   0, 9007199254743044, 0, 4719772426664165376,
   9223372036854775808, 361985685131002114, 144132780261900548, 8648063572759674900,
   1173187702963572776, 126768607751657609, 13944307785744826688, 2667488058145767452,
   2023559755096263684, 3076264096972779889, 1827872124046622896, 8310353164642315215,
   12136906272933825081, 15545001212044488457, 14814700502097700868, 12285100419639919475,
   9670082501097730335, 5518604699939968887, 9476093506087548489, 9796596215299450625,
   5958344982377384288, 12265343076877762427, 12165219924428479518, 1325243823695169124,
   11281310535319608749, 1034882804047488912, 1535714187706151253, 649279741799497956,
   17459309777971477598, 5500650830056389434, 16562679484493522125, 13945535446963880796,
   15567785657537865457, 14580602548817413697, 8635629319549429025, 14777824508854947588,
   16911204817919595455, 13700561142527922852, 2574132088199195008, 10308614111758391576,
   10852703017310842740, 16082347588028971208, 2184371991873687222, 12033888635545163341,
   10419660119830469926, 8585216435925201857, 14386434745505789993, 7139669067458878980,
   16562904965169700491, 18303181280394127650, 7589255923654424011, 10370349966052406001,
   9383377643078173111, 7113417478183963821, 9287236787583809989, 7025827219752386637,
   2720506219950445715, 11463598587821378836, 11074598858778813994, 3215546073741905920]

def KLit : List Nat :=
  [4794697086780616226, 8158064640168781261, 13096744586834688815, 16840607885511220156,
   4131703408338449720, 6480981068601479193, 10538285296894168987, 12329834152419229976,
   15566598209576043074, 1334009975649890238, 2608012711638119052, 6128411473006802146,
   8268148722764581231, 9286055187155687089, 11230858885718282805, 13951009754708518548,
   16472876342353939154, 17275323862435702243, 1135362057144423861, 2597628984639134821,
   3308224258029322869, 5365058923640841347, 6679025012923562964, 8573033837759648693,
   10970295158949994411, 12119686244451234320, 12683024718118986047, 13788192230050041572,
   14330467153632333762, 15395433587784984357, 489312712824947311, 1452737877330783856,
   2861767655752347644, 3322285676063803686, 5560940570517711597, 5996557281743188959,
   7280758554555802590, 8532644243296465576, 9350256976987008742, 10552545826968843579,
   11727347734174303076, 12113106623233404929, 14000437183269869457, 14369950271660146224,
   15101387698204529176, 15463397548674623760, 17586052441742319658, 1182934255886127544,
   1847814050463011016, 2177327727835720531, 2830643537854262169, 3796741975233480872,
   4115178125766777443, 5681478168544905931, 6601373596472566643, 7507060721942968483,
   8399075790359081724, 8693463985226723168, 9568029438360202098, 10144078919501101548,
   10430055236837252648, 11840083180663258601, 13761210420658862357, 14299343276471374635,
   14566680578165727644, 15097957966210449927, 16922976911328602910, 17689382322260857208,
   500013540394364858, 748580250866718886, 1242879168328830382, 1977374033974150939,
   2944078676154940804, 3659926193048069267, 4368137639120453308, 4836135668995329356,
   5532061633213252278, 6448918945643986474, 6902733635092675308, 7801388544844847127]

def h0w8 : Word8 :=
  ⟨7640891576956012808, 13503953896175478587, 4354685564936845355, 11912009170470909681, 5840696475078001361, 11170449401992604703, 2270897969802886507, 6620516959819538809⟩

def st20 : Word8 :=
  ⟨12603740802078081619, 7259474283948259824, 3280029084718757303, 11702245667014225582, 2439087024015677111, 7521305024183279694, 16714166088777974375, 17300981003431507799⟩

def st40 : Word8 :=
  ⟨6109844019387451280, 18014955160550453689, 14638953785217629854, 17263284987263657958, 4534933068400390657, 14194663295104695616, 6531442153746177128, 16337914719854201846⟩

def st60 : Word8 :=
  ⟨10477334923476079977, 16732118037317178048, 16525350475053332148, 8316550594923792609, 4564036060695640955, 3774921253118411700, 15136793916924334787, 5658120392235887474⟩

def st80 : Word8 :=
  ⟨16590354316283047806, 13818184367001344771, 2037463206167937637, 5776266022435338917, 13356607129400399863, 11114007369083713373, 16194014959973738944, 2551491534185647194⟩

def wordsLit : List Nat :=
  [5784501819529508998, 8875394189467271742, 6392148771104782992, 17688275192906248598,
   750559530768849608, 3837712697366766460, 18168856067073835, 9172008494005186003]

def digestLit : List Nat :=
  [80, 70, 173, 193, 219, 168, 56, 134, 123, 43, 187, 253,
   208, 195, 66, 62, 88, 181, 121, 112, 181, 38, 122, 144,
   245, 121, 96, 146, 74, 135, 241, 150, 10, 106, 133, 234,
   166, 66, 218, 200, 53, 66, 75, 93, 124, 141, 99, 124,
   0, 64, 140, 122, 115, 218, 103, 43, 127, 73, 133, 33,
   66, 11, 109, 211]

def aZeroLit : Nat :=
  39325648866980652792715009169219496062012184734522019333892538943312776480336

def bLit : EdPoint :=
  (15112221349535400772501151409588531511454012693041857206046113283949847762202,
   46316835694926478169428394003475163141307993866256225615783033603165251855960,
   1,
   46827403850823179245072216630277197565144205554125654976674165829533817101731)

def c1Lit : EdPoint :=
  (32449027465801352341401346618906001744009592585751006769438562375235071199619,
   33036042295844106363209399334427741674612292061255519498418540144419501819646,
   19356620120664895165101710302887859117954816530019324465185858869030316995134,
   54703716508166408625857501437582837627965707217465083558804851856241298183207)

def c2Lit : EdPoint :=
  (47241762109974504433752656580711371475108828767865868803848780844301267728026,
   56029826462514999458232881274887496788307969693624066542469397718910547174919,
   25525287934814398728571212396140696168443194511477517276470087642912831553440,
   21149641694961154142038137440327437227541255403081619353648473070022918247955)

def c3Lit : EdPoint :=
  (12362990478560543942031769304293108221053023658017479181211359513062240915600,
   52999900834261432221794940502141840900773822626344093080704103337952482500267,
   3457102123002879314148233225011002053434552338476584751949812129430952789076,
   9093747409411002183867282112421720341436410637255235870658210014594556538018)

def c4Lit : EdPoint :=
  (40549903708607690764733215256038497624144423949513405072538122213887915554455,
   15911441192577645418909106436150386056043912179379056424293091368807479583135,
   40901707681453639989308329529547393455027927241168979369549507478693067856128,
   50927583408156948650367111796705303957631615129479706113466471669612097776868)

def c5Lit : EdPoint :=
  (36926463280008722846037236519948723614618199389296067826760564779766719861927,
   47994599110159494565892885149432785235745596781208282245006588296237180755447,
   31975897004992806183077376805055799162361590066334996426877456693422754638496,
   28172982268420168307183783990959708165116326043988903558418133195577510292021)

def c6Lit : EdPoint :=
  (13534994373800436261101904070575524241032962194280836075276468982381929813545,
   28073150821580167077571930266707502795754155715172553749433571108092953935018,
   20725284429155056747816240200578985515109142388293407971497991482152339215062,
   56777119456766802737027926416923077771873807098432228052485233922798962687251)

def c7Lit : EdPoint :=
  (23880354396311916714745953257915734304369042754646956882298634204036940227067,
   11811200706640039583285980051480763270034791619433465513141461057004551701969,
   57259310771838877046268856105994176024466547130521136111290255495816993173286,
   1382944719986149730720739432334902567416958276715218383940854188911469119016)

def c8Lit : EdPoint :=
  (5478927543297651207411258214290390640908832901187572189662411680169151558639,
   16141077736595610787952416126009042405047588818728744031171586416026765162748,
   1551171489823439115619624122737017200145584091265229686658391562287256582215,
   35807023607632237600815117652747151840109428223744616806314220775736426542618)

/-- The ed25519 public key of the all-zero 32-byte seed. -/
def zeroSeedPub : List Nat :=
  [59, 106, 39, 188, 206, 182, 164, 45, 98, 163, 168, 208,
   42, 111, 13, 115, 101, 50, 21, 119, 29, 226, 67, 166,
   58, 192, 72, 161, 139, 89, 218, 41]

/-- A fully valid 64-byte secret key: zero seed plus its derived public
key. -/
def validKeyBytes : List Nat := List.replicate 32 0 ++ zeroSeedPub

/-- The JSON numeric-array encoding of `validKeyBytes`. -/
def jsonValidKey : String :=
  "[0,0,0,0,0,0,0,0,0,0,0,0,0,0,0,0,0,0,0,0,0,0,0,0,0,0,0,0,0,0,0,0,59,106,39,188,206,182,164,45,98,163,168,208,42,111,13,115,101,50,21,119,29,226,67,166,58,192,72,161,139,89,218,41]"

/-- The base58 encoding of `validKeyBytes`. -/
def b58ValidKey : String :=
  "111111111111111111111111111111114zvwRjXUKGfvwnParsHAS3HuSVzV5cA4McphgmoCtajS"

lemma sha512Rounds_split (st : Word8) (l : List (Nat × Nat)) (n : Nat) :
    sha512Rounds st l = sha512Rounds (sha512Rounds st (l.take n)) (l.drop n) := by
  unfold sha512Rounds
  rw [← List.foldl_append, List.take_append_drop]

lemma edRun_split (s : Nat) (P acc : EdPoint) (l : List Nat) (n : Nat) :
    edRun s P acc l = edRun s P (edRun s P acc (l.take n)) (l.drop n) := by
  unfold edRun
  rw [← List.foldl_append, List.take_append_drop]

lemma sha512Rounds_zeroSeed : sha512Rounds h0w8 (WLit.zip KLit) = st80 := by
  rw [sha512Rounds_split h0w8 (WLit.zip KLit) 20]
  rw [show sha512Rounds h0w8 ((WLit.zip KLit).take 20) = st20 from by decide]
  rw [sha512Rounds_split st20 ((WLit.zip KLit).drop 20) 20]
  rw [show sha512Rounds st20 (((WLit.zip KLit).drop 20).take 20) = st40 from by decide]
  rw [sha512Rounds_split st40 (((WLit.zip KLit).drop 20).drop 20) 20]
  rw [show sha512Rounds st40 ((((WLit.zip KLit).drop 20).drop 20).take 20) = st60
    from by decide]
  rw [show sha512Rounds st60 ((((WLit.zip KLit).drop 20).drop 20).drop 20) = st80
    from by decide]

lemma sha512_zeroSeed : sha512 (List.replicate 32 0) = digestLit := by
  have hcomp : sha512Compress sha512H0 (sha512Pad (List.replicate 32 0)) = wordsLit := by
    simp only [sha512Compress]
    rw [show (chunks 8 (sha512Pad (List.replicate 32 0))).map beWord = wsLit
      from by decide]
    rw [show sha512Schedule wsLit = WLit from by decide]
    rw [show sha512K = KLit from by decide]
    rw [show (⟨sha512H0.getD 0 0, sha512H0.getD 1 0, sha512H0.getD 2 0, sha512H0.getD 3 0,
        sha512H0.getD 4 0, sha512H0.getD 5 0, sha512H0.getD 6 0, sha512H0.getD 7 0⟩ : Word8)
      = h0w8 from by decide]
    rw [sha512Rounds_zeroSeed]
    decide
  simp only [sha512]
  rw [show chunks 128 (sha512Pad (List.replicate 32 0)) = [sha512Pad (List.replicate 32 0)]
    from by decide]
  simp only [List.foldl_cons, List.foldl_nil]
  rw [hcomp]
  decide

lemma edScalarMul_zeroSeed : edScalarMul aZeroLit bLit = c8Lit := by
  simp only [edScalarMul]
  rw [edRun_split aZeroLit bLit (0, 1, 1, 0) (List.range 255).reverse 32]
  rw [show edRun aZeroLit bLit (0, 1, 1, 0) ((List.range 255).reverse.take 32) = c1Lit
    from by decide]
  rw [edRun_split aZeroLit bLit c1Lit ((List.range 255).reverse.drop 32) 32]
  rw [show edRun aZeroLit bLit c1Lit (((List.range 255).reverse.drop 32).take 32) = c2Lit
    from by decide]
  rw [edRun_split aZeroLit bLit c2Lit (((List.range 255).reverse.drop 32).drop 32) 32]
  rw [show edRun aZeroLit bLit c2Lit ((((List.range 255).reverse.drop 32).drop 32).take 32)
    = c3Lit from by decide]
  rw [edRun_split aZeroLit bLit c3Lit
    ((((List.range 255).reverse.drop 32).drop 32).drop 32) 32]
  rw [show edRun aZeroLit bLit c3Lit
      (((((List.range 255).reverse.drop 32).drop 32).drop 32).take 32) = c4Lit
    from by decide]
  rw [edRun_split aZeroLit bLit c4Lit
    (((((List.range 255).reverse.drop 32).drop 32).drop 32).drop 32) 32]
  rw [show edRun aZeroLit bLit c4Lit
      ((((((List.range 255).reverse.drop 32).drop 32).drop 32).drop 32).take 32) = c5Lit
    from by decide]
  rw [edRun_split aZeroLit bLit c5Lit
    ((((((List.range 255).reverse.drop 32).drop 32).drop 32).drop 32).drop 32) 32]
  rw [show edRun aZeroLit bLit c5Lit
      (((((((List.range 255).reverse.drop 32).drop 32).drop 32).drop 32).drop 32).take 32)
      = c6Lit
    from by decide]
  rw [edRun_split aZeroLit bLit c6Lit
    (((((((List.range 255).reverse.drop 32).drop 32).drop 32).drop 32).drop 32).drop 32) 32]
  rw [show edRun aZeroLit bLit c6Lit
      ((((((((List.range 255).reverse.drop 32).drop 32).drop 32).drop 32).drop 32).drop
        32).take 32) = c7Lit
    from by decide]
  rw [show edRun aZeroLit bLit c7Lit
      ((((((((List.range 255).reverse.drop 32).drop 32).drop 32).drop 32).drop 32).drop
        32).drop 32) = c8Lit
    from by decide]

lemma ed25519PublicKey_zeroSeed : ed25519PublicKey (List.replicate 32 0) = zeroSeedPub := by
  simp only [ed25519PublicKey]
  rw [sha512_zeroSeed]
  rw [show edClamp (digestLit.take 32) = aZeroLit from by decide]
  rw [show edBase = bLit from by decide]
  rw [edScalarMul_zeroSeed]
  decide

lemma fromSecretKey_validKeyBytes :
    Keypair.fromSecretKey validKeyBytes = .ok ⟨validKeyBytes⟩ := by
  unfold Keypair.fromSecretKey
  rw [show validKeyBytes.take 32 = List.replicate 32 0 from by decide]
  rw [show validKeyBytes.drop 32 = zeroSeedPub from by decide]
  rw [ed25519PublicKey_zeroSeed]
  rw [show validKeyBytes.length = 64 from by decide]
  simp

/-! ## C2 — instruction ordering in `buildCustomTransaction` -/

/-- C2: for every aggregator instruction set, the assembled transaction's
instruction list is exactly compute-budget ++ setup ++ token-ledger ++ main
swap ++ cleanup, each decoded in place — no reordering and no omission. -/
theorem buildCustomTransaction_instruction_order
    (instrs : SwapInstructionsResponse) (feeWallet platformWallet : Keypair)
    (lookup : String → Option (List Nat)) (blockhash : String) :
    (buildCustomTransaction instrs feeWallet platformWallet lookup blockhash).message.instructions
      = (instrs.computeBudgetInstructions ++ instrs.setupInstructions
          ++ instrs.tokenLedgerInstruction.toList ++ [instrs.swapInstruction]
          ++ instrs.cleanupInstruction.toList).map deserializeInstruction := by
  unfold buildCustomTransaction
  cases h1 : instrs.computeBudgetInstructions <;>
    cases h2 : instrs.setupInstructions <;>
      cases h3 : instrs.tokenLedgerInstruction <;>
        cases h4 : instrs.cleanupInstruction <;>
          simp [h1, h2, h3, h4]

/-! ## C1 — fee payer designation and dual signatures -/

/-- C1 counterexample: the quote-api `executeSwap` variant (`jupiter.js`
lines 425-437) signs a versioned transaction with the funder only, so the
platform (FeePayer) signature is absent even though the principals differ —
the claim's universal statement over the dual-signer builder fails there. -/
theorem executeSwapSignQuoteApi_missing_feePayer_signature :
    (executeSwapSignQuoteApi ⟨true, kpFunder.publicKey, []⟩ kpFunder kpPayer).signatures
        = [kpFunder.publicKey]
      ∧ kpPayer.publicKey
          ∉ (executeSwapSignQuoteApi ⟨true, kpFunder.publicKey, []⟩ kpFunder kpPayer).signatures
      ∧ kpPayer.publicKey ≠ kpFunder.publicKey := by decide

/-- C1 amended: every transaction produced by `buildCustomTransaction`
designates the platform wallet (FeePayer) as payer, carries the FeePayer's
signature first and the Funder's signature after it; the lite-api
`executeSwap` signs in the same order on both paths.  (The quote-api
variant's versioned path, by contrast, omits the FeePayer's signature.) -/
theorem buildCustomTransaction_feePayer_and_signatures
    (instrs : SwapInstructionsResponse) (feeWallet platformWallet : Keypair)
    (lookup : String → Option (List Nat)) (blockhash : String) (t : SwapTx) :
    (buildCustomTransaction instrs feeWallet platformWallet lookup blockhash).message.payerKey
        = platformWallet.publicKey
      ∧ (buildCustomTransaction instrs feeWallet platformWallet lookup blockhash).signatures
        = [platformWallet.publicKey, feeWallet.publicKey]
      ∧ (executeSwapSignLite t feeWallet platformWallet).signatures
        = [platformWallet.publicKey, feeWallet.publicKey] := by
  refine ⟨rfl, rfl, ?_⟩
  unfold executeSwapSignLite
  split <;> rfl

/-! ## C9 — stale lookup-table addresses -/

/-- C9 counterexample: a table address that no longer resolves is silently
dropped — resolution returns the empty list (no error value of any kind),
and the transaction is still built with the table omitted. -/
theorem getAddressLookupTableAccounts_silently_omits_stale :
    getAddressLookupTableAccounts ["table1"] (fun _ => none) = []
      ∧ (buildCustomTransaction ⟨none, [], [], sampleSwapInstr, none, ["table1"]⟩
          kpFunder kpPayer (fun _ => none) "bh").message.addressLookupTableAccounts = [] := by
  constructor
  · rfl
  · rfl

/-- Accumulator form of the `reduce` in `getAddressLookupTableAccounts`. -/
lemma altFoldl_eq_filterMap (l : List (Option (List Nat) × String))
    (acc : List AddressLookupTableAccount) :
    l.foldl
        (fun acc p =>
          match p.1 with
          | some data => acc ++ [⟨p.2, data⟩]
          | none => acc)
        acc
      = acc ++ l.filterMap
          (fun p => p.1.map (fun data => (⟨p.2, data⟩ : AddressLookupTableAccount))) := by
  induction l generalizing acc with
  | nil => simp
  | cons p ps ih =>
    obtain ⟨o, k⟩ := p
    cases o <;> simp [ih]

/-- Zipping a mapped list with the original pairs each element with its
image. -/
lemma mapZipSelf {β : Type} (l : List String) (f : String → β) :
    (l.map f).zip l = l.map (fun k => (f k, k)) := by
  induction l with
  | nil => simp
  | cons b bs ih => simp [ih]

/-- C9 amended: lookup-table resolution never fails; it returns exactly the
resolvable tables in order, silently omitting every address that no longer
resolves to an account (the caller is not told). -/
theorem getAddressLookupTableAccounts_filters_unresolved
    (keys : List String) (lookup : String → Option (List Nat)) :
    getAddressLookupTableAccounts keys lookup
      = keys.filterMap
          (fun k => (lookup k).map (fun data => (⟨k, data⟩ : AddressLookupTableAccount))) := by
  unfold getAddressLookupTableAccounts
  cases keys with
  | nil => simp
  | cons a as =>
    simp only [List.isEmpty_cons, Bool.false_eq_true, if_false, mapZipSelf]
    rw [altFoldl_eq_filterMap, List.filterMap_map]
    rfl

/-! ## C3 — quote validation -/

/-- C3 counterexample: the silent builder's quote client
(`jupiter-custom-tx-silent.js` `getQuote`) performs no validation at all —
a response whose `outAmount` is missing is returned as-is and flows on to
instruction assembly, so the claim that such a response is always rejected
is false. -/
theorem silentGetQuote_accepts_missing_outAmount :
    silentGetQuote ⟨.str "500000000", .undef⟩ = .ok ⟨.str "500000000", .undef⟩
      ∧ (JSVal.undef).truthy = false := by
  exact ⟨rfl, rfl⟩

/-- C3 amended: `JupiterPaymentsAsSwap.getQuote` (`jupiter.js`) rejects a
response whose `inAmount` or `outAmount` is JS-falsy (in particular a
missing `outAmount`) with the invalid-quote error and accepts it otherwise,
while `JupiterCustomTxBuilderSilent.getQuote` returns every response
unvalidated. -/
theorem getQuote_validation_behaviour (q : QuoteResponse) :
    ((q.inAmount.truthy = false ∨ q.outAmount.truthy = false) →
        getQuoteValidated q = .error ("Invalid quote response from Jupiter"))
      ∧ (q.inAmount.truthy = true → q.outAmount.truthy = true →
        getQuoteValidated q = .ok q)
      ∧ silentGetQuote q = .ok q := by
  refine ⟨?_, ?_, rfl⟩
  · intro h
    unfold getQuoteValidated
    rcases h with h | h <;> simp [h]
  · intro h1 h2
    unfold getQuoteValidated
    simp [h1, h2]

/-- C3 witness: the validated client rejects a quote missing `outAmount`;
the silent client passes one through. -/
theorem getQuote_validation_behaviour_witness :
    getQuoteValidated ⟨.str "500000000", .undef⟩
        = .error ("Invalid quote response from Jupiter")
      ∧ silentGetQuote ⟨.str "1", .undef⟩ = .ok ⟨.str "1", .undef⟩ := by
  exact ⟨(getQuote_validation_behaviour ⟨.str "500000000", .undef⟩).1 (Or.inr rfl),
    (getQuote_validation_behaviour ⟨.str "1", .undef⟩).2.2⟩

/-! ## C4 — size-exceeded fallback tiers -/

/-- A concrete attempt oracle on which every tier fails with a distinct
size error. -/
def c4AllSizeFail : Option Nat → Except String Unit := fun o =>
  .error (match o with
          | none => "Transaction too large: original"
          | some 40 => "Transaction too large: tier40"
          | some 30 => "Transaction too large: tier30"
          | some 25 => "Transaction too large: tier25"
          | some _ => "Transaction too large: other")

/-- C4 counterexample: when the unconstrained attempt and all three tiers
fail with size errors, the surfaced terminal error wraps the ORIGINAL
unconstrained attempt's message; the most recent tier's message (tier 25)
does not appear in it, refuting the claim that the most recent
`SizeExceeded` is surfaced. -/
theorem executeSwapWithCustomPayer_surfaces_original_error :
    executeSwapWithCustomPayer c4AllSizeFail
        = .error (sizeExhaustedMsg ("Transaction too large: original"))
      ∧ jsIncludes (sizeExhaustedMsg ("Transaction too large: original")) ("tier25") = false
      ∧ jsIncludes ("Transaction too large: tier25") ("too large") = true := by
  refine ⟨rfl, by decide, by decide⟩

/-- C4 amended: on a size-exceeded failure of the unconstrained attempt the
controller re-enters with the fixed tiers 40, 30, 25 in that order — the
first succeeding tier's value is returned, a non-size error at a tier is
surfaced immediately — and when every tier also fails with a size error the
terminal failure wraps the original unconstrained attempt's error message
(not the most recent tier's). -/
theorem executeSwapWithCustomPayer_fallback_policy {α : Type}
    (attempt : Option Nat → Except String α) (e0 : String)
    (h0 : attempt none = .error e0) (hsize : jsIncludes e0 ("too large") = true) :
    (∀ v, attempt (some 40) = .ok v → executeSwapWithCustomPayer attempt = .ok v)
    ∧ (∀ e1, attempt (some 40) = .error e1 → jsIncludes e1 ("too large") = false →
        executeSwapWithCustomPayer attempt = .error e1)
    ∧ (∀ e1 v, attempt (some 40) = .error e1 → jsIncludes e1 ("too large") = true →
        attempt (some 30) = .ok v → executeSwapWithCustomPayer attempt = .ok v)
    ∧ (∀ e1 e2 v, attempt (some 40) = .error e1 → jsIncludes e1 ("too large") = true →
        attempt (some 30) = .error e2 → jsIncludes e2 ("too large") = true →
        attempt (some 25) = .ok v → executeSwapWithCustomPayer attempt = .ok v)
    ∧ (∀ e1 e2, attempt (some 40) = .error e1 → jsIncludes e1 ("too large") = true →
        attempt (some 30) = .error e2 → jsIncludes e2 ("too large") = false →
        executeSwapWithCustomPayer attempt = .error e2)
    ∧ (∀ e1 e2 e3, attempt (some 40) = .error e1 → jsIncludes e1 ("too large") = true →
        attempt (some 30) = .error e2 → jsIncludes e2 ("too large") = true →
        attempt (some 25) = .error e3 → jsIncludes e3 ("too large") = false →
        executeSwapWithCustomPayer attempt = .error e3)
    ∧ ((∀ l ∈ fallbackLimits, ∃ el, attempt (some l) = .error el
            ∧ jsIncludes el ("too large") = true) →
        executeSwapWithCustomPayer attempt = .error (sizeExhaustedMsg e0)) := by
  refine ⟨?_, ?_, ?_, ?_, ?_, ?_, ?_⟩
  · intro v h40
    simp [executeSwapWithCustomPayer, tryFallbackLimits, fallbackLimits, h0, hsize, h40]
  · intro e1 h40 hn40
    simp [executeSwapWithCustomPayer, tryFallbackLimits, fallbackLimits, h0, hsize, h40, hn40]
  · intro e1 v h40 hs40 h30
    simp [executeSwapWithCustomPayer, tryFallbackLimits, fallbackLimits, h0, hsize,
      h40, hs40, h30]
  · intro e1 e2 v h40 hs40 h30 hs30 h25
    simp [executeSwapWithCustomPayer, tryFallbackLimits, fallbackLimits, h0, hsize,
      h40, hs40, h30, hs30, h25]
  · intro e1 e2 h40 hs40 h30 hn30
    simp [executeSwapWithCustomPayer, tryFallbackLimits, fallbackLimits, h0, hsize,
      h40, hs40, h30, hn30]
  · intro e1 e2 e3 h40 hs40 h30 hs30 h25 hn25
    simp [executeSwapWithCustomPayer, tryFallbackLimits, fallbackLimits, h0, hsize,
      h40, hs40, h30, hs30, h25, hn25]
  · intro hall
    obtain ⟨e1, h40, hs40⟩ := hall 40 (by simp [fallbackLimits])
    obtain ⟨e2, h30, hs30⟩ := hall 30 (by simp [fallbackLimits])
    obtain ⟨e3, h25, hs25⟩ := hall 25 (by simp [fallbackLimits])
    simp [executeSwapWithCustomPayer, tryFallbackLimits, fallbackLimits, h0, hsize,
      h40, hs40, h30, hs30, h25, hs25]

/-- C4 witness: tier 40 is tried first after an unconstrained size failure
and its success is returned with no caller intervention. -/
theorem executeSwapWithCustomPayer_fallback_policy_witness :
    executeSwapWithCustomPayer
        (fun o => match o with
          | none => (.error ("tx too large") : Except String Nat)
          | some _ => .ok 7) = .ok 7 := by
  exact (executeSwapWithCustomPayer_fallback_policy
    (fun o => match o with
      | none => (.error ("tx too large") : Except String Nat)
      | some _ => .ok 7) ("tx too large") rfl (by decide)).1 7 rfl

/-! ## C5 — LikelyLanded resolution by balance re-check -/

/-- C5: when the confirmation wait fails with error text suggesting the
transaction may have landed (`expired` / `block height`), the outcome is
decided by re-reading the source token balance: an emptied source account
yields a definite success (Scenario C: timed-out submission whose post-hoc
balance shows the expected decrease is Confirmed), a non-empty one a
definite failure — never an ambiguous state. -/
theorem transferNFT_likelyLanded_balance_decides (msg : String) (bal : ℚ)
    (h : jsIncludes msg ("expired") = true ∨ jsIncludes msg ("block height") = true) :
    (bal = 0 → transferNFTWithMetaplex (.error msg) bal
        = .ok (match extractSignature msg with
               | some s => s
               | none => "transfer_successful_but_signature_unknown"))
    ∧ (bal ≠ 0 → transferNFTWithMetaplex (.error msg) bal
        = .error manualInstructionErrorMsg) := by
  have hcond : (jsIncludes msg ("expired") || jsIncludes msg ("block height")) = true := by
    rcases h with h | h <;> simp [h]
  unfold transferNFTWithMetaplex
  constructor
  · intro hb
    simp [hcond, hb]
  · intro hb
    simp [hcond, hb]

/-- C5 witness: a timed-out confirmation whose post-hoc source balance is
zero resolves to Confirmed with the fallback signature string. -/
theorem transferNFT_likelyLanded_balance_decides_witness :
    transferNFTWithMetaplex (.error ("tx expired")) 0
      = .ok ("transfer_successful_but_signature_unknown") := by
  have h := (transferNFT_likelyLanded_balance_decides ("tx expired") 0
    (Or.inl (by decide))).1 rfl
  exact h.trans (by decide)

/-! ## C6 — reported amounts vs balance deltas -/

/-- C6 counterexample: the success response's `inputAmount`/`outputAmount`
are the aggregator's quoted amounts, not balance deltas — here the actual
funder snapshot delta is 0.6 SOL while the reported `inputAmount` stays the
quoted `"500000000"` — and nothing constrains the funder delta: with a
funder balance that increased by 5 lamports the response still reports
success with a negative `feeWalletSpent`. -/
theorem mainSuccessResponse_reports_quoted_amounts :
    (mainSuccessResponse (swapSuccess ⟨.str "500000000", .str "1000000"⟩ ("sig"))
        (1/2) 600000000 0 10 0).inputAmount = .str "500000000"
      ∧ (mainSuccessResponse (swapSuccess ⟨.str "500000000", .str "1000000"⟩ ("sig"))
          (1/2) 600000000 0 10 0).feeWalletSpent = 3/5
      ∧ (3 : ℚ)/5 ≠ 1/2
      ∧ (mainSuccessResponse (swapSuccess ⟨.str "500000000", .str "1000000"⟩ ("sig"))
          (1/2) 0 5 0 0).feeWalletSpent < 0 := by
  refine ⟨rfl, ?_, by norm_num, ?_⟩
  · show ((600000000 : ℚ) - 0) / 1000000000 = 3/5
    norm_num
  · show ((0 : ℚ) - 5) / 1000000000 < 0
    norm_num

/-- C6 amended: the success response propagates the aggregator's quoted
`inAmount`/`outAmount` unchanged as the reported amounts, and separately
reports the raw before/after snapshot deltas (divided by 1e9) as
`feeWalletSpent`/`platformWalletFeesSpent`; no tolerance relation between
the two is checked or guaranteed. -/
theorem mainSuccessResponse_fields (q : QuoteResponse) (sig : String) (amt : ℚ)
    (i1 f1 i2 f2 : Int) :
    (mainSuccessResponse (swapSuccess q sig) amt i1 f1 i2 f2).inputAmount = q.inAmount
      ∧ (mainSuccessResponse (swapSuccess q sig) amt i1 f1 i2 f2).outputAmount = q.outAmount
      ∧ (mainSuccessResponse (swapSuccess q sig) amt i1 f1 i2 f2).feeWalletSpent
        = ((i1 : ℚ) - (f1 : ℚ)) / 1000000000
      ∧ (mainSuccessResponse (swapSuccess q sig) amt i1 f1 i2 f2).platformWalletFeesSpent
        = ((i2 : ℚ) - (f2 : ℚ)) / 1000000000
      ∧ (mainSuccessResponse (swapSuccess q sig) amt i1 f1 i2 f2).signature = sig := by
  exact ⟨rfl, rfl, rfl, rfl, rfl⟩

/-! ## C7 — credential encodings -/

/-- C7 counterexample: a JSON numeric-array credential encoding a fully
valid 64-byte secret key (the zero seed plus its derived public key) is
accepted by `parseKeypairFromPrivateKey` (`part_000`) but rejected by the
cited `parsePrivateKey` (`solana.js`), which only attempts base58 — so key
resolution as a whole does not accept both encodings for every credential
string. -/
theorem parsePrivateKey_rejects_json_credential :
    parseKeypairFromPrivateKey jsonValidKey = .ok ⟨validKeyBytes⟩
      ∧ parsePrivateKey jsonValidKey
        = .error ("Invalid private key format: " ++ nonBase58Msg) := by
  constructor
  · unfold parseKeypairFromPrivateKey
    rw [show base58Decode jsonValidKey = none from by decide]
    rw [show parseJsonNumArray jsonValidKey = some validKeyBytes from by decide]
    simp [fromSecretKey_validKeyBytes]
  · unfold parsePrivateKey
    rw [show base58Decode jsonValidKey = none from by decide]

/-- C7 amended: `parseKeypairFromPrivateKey` (`part_000`) accepts both a
base58 credential and a JSON numeric-array credential, returning a signing
principal whenever either route decodes to a 64-byte secret key that
passes the library's validity check (its trailing 32 bytes equal the
public key derived from its seed), and fails with the malformed-credential
message when both routes fail (undecodable, wrong length, or invalid key);
`parsePrivateKey` (`solana.js`) accepts only the base58 encoding. -/
theorem keyResolution_encodings (s : String) :
    (∀ bytes kp, base58Decode s = some bytes → Keypair.fromSecretKey bytes = .ok kp →
        parseKeypairFromPrivateKey s = .ok kp ∧ parsePrivateKey s = .ok kp)
    ∧ (∀ arr kp, parseJsonNumArray s = some arr → Keypair.fromSecretKey arr = .ok kp →
        (base58Decode s = none
          ∨ ∃ bytes e, base58Decode s = some bytes ∧ Keypair.fromSecretKey bytes = .error e) →
        parseKeypairFromPrivateKey s = .ok kp ∧ ∃ e2, parsePrivateKey s = .error e2)
    ∧ ((base58Decode s = none
          ∨ ∃ bytes e, base58Decode s = some bytes ∧ Keypair.fromSecretKey bytes = .error e) →
        (parseJsonNumArray s = none
          ∨ ∃ arr e, parseJsonNumArray s = some arr ∧ Keypair.fromSecretKey arr = .error e) →
        parseKeypairFromPrivateKey s
          = .error ("Invalid private key format. Expected base58 string or JSON array of numbers")) := by
  refine ⟨?_, ?_, ?_⟩
  · intro bytes kp hb hk
    constructor
    · simp [parseKeypairFromPrivateKey, hb, hk]
    · simp [parsePrivateKey, hb, hk]
  · intro arr kp hj hk hbad
    rcases hbad with hb | ⟨bytes, e, hb, he⟩
    · exact ⟨by simp [parseKeypairFromPrivateKey, hb, hj, hk],
        ⟨"Invalid private key format: " ++ nonBase58Msg, by simp [parsePrivateKey, hb]⟩⟩
    · exact ⟨by simp [parseKeypairFromPrivateKey, hb, he, hj, hk],
        ⟨"Invalid private key format: " ++ e, by simp [parsePrivateKey, hb, he]⟩⟩
  · intro hbad hjbad
    rcases hbad with hb | ⟨bytes, e, hb, he⟩ <;>
      rcases hjbad with hj | ⟨arr, e2, hj, hj2⟩ <;>
        simp [parseKeypairFromPrivateKey, hb, hj, *]

/-- C7 witness: the base58 credential of the fully valid zero-seed keypair
is accepted by both resolvers. -/
theorem keyResolution_encodings_witness :
    parseKeypairFromPrivateKey b58ValidKey = .ok ⟨validKeyBytes⟩
      ∧ parsePrivateKey b58ValidKey = .ok ⟨validKeyBytes⟩ :=
  (keyResolution_encodings b58ValidKey).1 validKeyBytes ⟨validKeyBytes⟩
    (by decide) fromSecretKey_validKeyBytes

/-! ## C8 — retry combinator -/

/-- The value of the JS `lastError` variable after the loop has processed
the given indices, starting from `lastE`. -/
def lastErrStr (fn : Nat → Except String α) : List Nat → String → String
  | [], lastE => lastE
  | i :: rest, lastE =>
    lastErrStr fn rest
      (match fn i with
       | .error e => e
       | .ok _ => lastE)

lemma lastErrStr_append_singleton (fn : Nat → Except String α) (l : List Nat)
    (i : Nat) (lastE : String) :
    lastErrStr fn (l ++ [i]) lastE
      = (match fn i with
         | .error e => e
         | .ok _ => lastErrStr fn l lastE) := by
  induction l generalizing lastE with
  | nil => rfl
  | cons j rest ih =>
    simp only [List.cons_append, lastErrStr]
    exact ih _

lemma retryGo_callCount_le (fn : Nat → Except String α) (m b : Nat)
    (l : List Nat) (lastE : String) :
    (retryGo fn m b l lastE).callCount ≤ l.length := by
  induction l generalizing lastE with
  | nil => simp [retryGo]
  | cons i rest ih =>
    cases h : fn i with
    | ok v => simp [retryGo, h]
    | error e =>
      simp only [retryGo, h, List.length_cons]
      exact Nat.succ_le_succ (ih e)

lemma retryGo_prefix_fail (fn : Nat → Except String α) (m b : Nat)
    (l1 : List Nat) (k : Nat) (l2 : List Nat) (v : α)
    (hfail : ∀ j ∈ l1, ∃ e, fn j = .error e) (hk : fn k = .ok v) :
    ∀ lastE, retryGo fn m b (l1 ++ k :: l2) lastE
      = ⟨.ok v, l1.length + 1, l1.map (fun i => b * 2 ^ i)⟩ := by
  induction l1 with
  | nil => intro lastE; simp [retryGo, hk]
  | cons i rest ih =>
    intro lastE
    obtain ⟨e, he⟩ := hfail i (by simp)
    have ihh : retryGo fn m b (List.append rest (k :: l2)) e
        = ⟨.ok v, rest.length + 1, rest.map (fun n => b * 2 ^ n)⟩ :=
      ih (fun j hj => hfail j (by simp [hj])) e
    have hne : List.append rest (k :: l2) ≠ [] := by simp
    simp only [List.cons_append, retryGo, he]
    rw [ihh]
    simp [hne]

lemma retryGo_all_fail (fn : Nat → Except String α) (m b : Nat) :
    ∀ (l : List Nat) (lastE : String),
      (∀ j ∈ l, ∃ e, fn j = .error e) →
      retryGo fn m b l lastE
        = ⟨.error (retryFailMsg m (lastErrStr fn l lastE)), l.length,
            (l.dropLast).map (fun i => b * 2 ^ i)⟩ := by
  intro l
  induction l with
  | nil => intro lastE _; simp [retryGo, lastErrStr]
  | cons i rest ih =>
    intro lastE hfail
    obtain ⟨e, he⟩ := hfail i (by simp)
    have ihh := ih e (fun j hj => hfail j (by simp [hj]))
    have hd : ((if rest = [] then [] else [b * 2 ^ i]) : List Nat)
          ++ (rest.dropLast).map (fun n => b * 2 ^ n)
        = ((i :: rest).dropLast).map (fun n => b * 2 ^ n) := by
      cases rest with
      | nil => simp
      | cons r rs => simp [List.dropLast]
    simp only [retryGo, he, lastErrStr, List.length_cons]
    rw [ihh]
    simp only [RetryTrace.mk.injEq]
    refine ⟨trivial, trivial, ?_⟩
    simpa using hd

/-- C8: for `maxRetries ≥ 1`, `retry` invokes the operation at most
`maxRetries` times; when attempt `k` is the first success it returns that
value after exactly `k + 1` invocations, having slept `baseDelay * 2 ^ i`
after each failed attempt `i < k`; and when every attempt fails it throws
the wrapping error carrying the last attempt's message, after exactly
`maxRetries` invocations with no delay after the final attempt. -/
theorem retry_spec (fn : Nat → Except String α) (maxRetries baseDelay : Nat)
    (hmr : 1 ≤ maxRetries) :
    (retry fn maxRetries baseDelay).callCount ≤ maxRetries
    ∧ (∀ k v, k < maxRetries → (∀ j, j < k → ∃ e, fn j = .error e) → fn k = .ok v →
        retry fn maxRetries baseDelay
          = ⟨.ok v, k + 1, (List.range k).map (fun i => baseDelay * 2 ^ i)⟩)
    ∧ (∀ elast, (∀ j, j < maxRetries → ∃ e, fn j = .error e) →
        fn (maxRetries - 1) = .error elast →
        retry fn maxRetries baseDelay
          = ⟨.error (retryFailMsg maxRetries elast), maxRetries,
              (List.range (maxRetries - 1)).map (fun i => baseDelay * 2 ^ i)⟩) := by
  refine ⟨?_, ?_, ?_⟩
  · have h := retryGo_callCount_le fn maxRetries baseDelay (List.range maxRetries) ""
    simpa [retry] using h
  · intro k v hk hfail hok
    have hsplit : List.range maxRetries
        = List.range k ++ k :: List.range' (k + 1) (maxRetries - k - 1) := by
      have h1 : List.range' 0 k 1 ++ List.range' (0 + 1 * k) (maxRetries - k) 1
          = List.range' 0 maxRetries 1 := by
        rw [List.range'_append]
        congr 1
        omega
      have h2 : maxRetries - k = (maxRetries - k - 1) + 1 := by omega
      rw [List.range_eq_range', ← h1, h2, List.range'_succ, ← List.range_eq_range']
      simp
    have hpre := retryGo_prefix_fail fn maxRetries baseDelay (List.range k) k
      (List.range' (k + 1) (maxRetries - k - 1)) v
      (fun j hj => hfail j (List.mem_range.mp hj)) hok ""
    rw [retry, hsplit, hpre, List.length_range]
  · intro elast hfail helast
    have hm : maxRetries = (maxRetries - 1) + 1 := by omega
    have hall := retryGo_all_fail fn maxRetries baseDelay (List.range maxRetries) ""
      (fun j hj => hfail j (List.mem_range.mp hj))
    have hlast : lastErrStr fn (List.range maxRetries) "" = elast := by
      rw [hm, List.range_succ, lastErrStr_append_singleton, helast]
    have hgen : ∀ n, (List.range (n + 1)).dropLast = List.range n := by
      intro n
      rw [List.range_succ, List.dropLast_concat]
    have hdrop : (List.range maxRetries).dropLast = List.range (maxRetries - 1) := by
      conv_lhs => rw [hm]
      exact hgen (maxRetries - 1)
    rw [retry, hall, hlast, hdrop, List.length_range]

/-- C8 witness: with three attempts whose first fails and second succeeds,
`retry` returns the success after two invocations and one delay of
`baseDelay * 2 ^ 0`. -/
theorem retry_spec_witness :
    retry (fun j => if j = 0 then .error ("boom") else .ok (42 : Nat)) 3 100
      = ⟨.ok 42, 2, [100]⟩ :=
  (retry_spec (fun j => if j = 0 then .error ("boom") else .ok (42 : Nat)) 3 100
      (by decide)).2.1 1 42 (by decide)
    (fun j hj => ⟨"boom", by
      have hj0 : j = 0 := by omega
      simp [hj0]⟩)
    rfl

/-! ## C10 — `validateSwapParams` -/

/-- `validateSwapParams` succeeds exactly when every field is truthy, the
amount is positive and all four key/address strings parse. -/
lemma validateSwapParams_ok_iff (p : SwapParams) :
    validateSwapParams p = .ok () ↔
      (truthyS p.feeWalletKey = true ∧ truthyS p.assetVaultPubkey = true
        ∧ truthyS p.tokenMint = true ∧ truthyI p.solAmount = true
        ∧ truthyS p.platformWalletKey = true
        ∧ ¬(p.solAmount.getD 0 ≤ 0)
        ∧ (∃ kp, parsePrivateKey (p.feeWalletKey.getD "") = .ok kp)
        ∧ (∃ kp, parsePrivateKey (p.platformWalletKey.getD "") = .ok kp)
        ∧ (∃ pk, parsePublicKey (p.assetVaultPubkey.getD "") = .ok pk)
        ∧ (∃ pk, parsePublicKey (p.tokenMint.getD "") = .ok pk)) := by
  unfold validateSwapParams
  split_ifs with h1 h2 h3 h4 h5 h6
  · simp [h1]
  · simp [h2]
  · simp [h3]
  · simp [h4]
  · simp [h5]
  · simp [h6]
  · simp only [Bool.not_eq_false] at h1 h2 h3 h4 h5
    cases hp1 : parsePrivateKey (p.feeWalletKey.getD "") with
    | error e => simp [h1, h2, h3, h4, h5, h6, hp1]
    | ok kp1 =>
      cases hp2 : parsePrivateKey (p.platformWalletKey.getD "") with
      | error e => simp [h1, h2, h3, h4, h5, h6, hp1, hp2]
      | ok kp2 =>
        cases hp3 : parsePublicKey (p.assetVaultPubkey.getD "") with
        | error e => simp [h1, h2, h3, h4, h5, h6, hp1, hp2, hp3]
        | ok pk3 =>
          cases hp4 : parsePublicKey (p.tokenMint.getD "") with
          | error e => simp [h1, h2, h3, h4, h5, h6, hp1, hp2, hp3, hp4]
          | ok pk4 => simp [h1, h2, h3, h4, h5, h6, hp1, hp2, hp3, hp4]

/-- C10: `validateSwapParams` throws iff some required field is falsy, or
`solAmount ≤ 0`, or a credential/address string fails to parse; when
`solAmount` is exactly 0 the falsy check fires first, so a
missing-parameter error is thrown and the amount-positivity message is
unreachable.  (The embedding is a pure function of `params`, mirroring that
the source only reads its argument.) -/
theorem validateSwapParams_spec (p : SwapParams) :
    ((∃ e, validateSwapParams p = .error e) ↔
      (truthyS p.feeWalletKey = false ∨ truthyS p.assetVaultPubkey = false
        ∨ truthyS p.tokenMint = false ∨ truthyI p.solAmount = false
        ∨ truthyS p.platformWalletKey = false
        ∨ p.solAmount.getD 0 ≤ 0
        ∨ (∃ e, parsePrivateKey (p.feeWalletKey.getD "") = .error e)
        ∨ (∃ e, parsePrivateKey (p.platformWalletKey.getD "") = .error e)
        ∨ (∃ e, parsePublicKey (p.assetVaultPubkey.getD "") = .error e)
        ∨ (∃ e, parsePublicKey (p.tokenMint.getD "") = .error e)))
    ∧ (p.solAmount = some 0 →
        ∃ f, validateSwapParams p = .error ("Missing required parameter: " ++ f))
    ∧ (p.solAmount = some 0 →
        validateSwapParams p ≠ .error ("SOL amount must be greater than 0")) := by
  refine ⟨⟨?_, ?_⟩, ?_, ?_⟩
  · rintro ⟨e, he⟩
    by_contra hall
    push_neg at hall
    obtain ⟨n1, n2, n3, n4, n5, n6, n7, n8, n9, n10⟩ := hall
    have m7 : ∃ kp, parsePrivateKey (p.feeWalletKey.getD "") = .ok kp := by
      cases hp : parsePrivateKey (p.feeWalletKey.getD "") with
      | error e2 => exact (n7 e2 hp).elim
      | ok kp => exact ⟨kp, rfl⟩
    have m8 : ∃ kp, parsePrivateKey (p.platformWalletKey.getD "") = .ok kp := by
      cases hp : parsePrivateKey (p.platformWalletKey.getD "") with
      | error e2 => exact (n8 e2 hp).elim
      | ok kp => exact ⟨kp, rfl⟩
    have m9 : ∃ pk, parsePublicKey (p.assetVaultPubkey.getD "") = .ok pk := by
      cases hp : parsePublicKey (p.assetVaultPubkey.getD "") with
      | error e2 => exact (n9 e2 hp).elim
      | ok pk => exact ⟨pk, rfl⟩
    have m10 : ∃ pk, parsePublicKey (p.tokenMint.getD "") = .ok pk := by
      cases hp : parsePublicKey (p.tokenMint.getD "") with
      | error e2 => exact (n10 e2 hp).elim
      | ok pk => exact ⟨pk, rfl⟩
    have hok := (validateSwapParams_ok_iff p).mpr
      ⟨eq_true_of_ne_false n1, eq_true_of_ne_false n2,
        eq_true_of_ne_false n3, eq_true_of_ne_false n4,
        eq_true_of_ne_false n5, not_le.mpr n6, m7, m8, m9, m10⟩
    rw [hok] at he
    exact Except.noConfusion he
  · intro h
    cases hres : validateSwapParams p with
    | error e => exact ⟨e, rfl⟩
    | ok u =>
      cases u
      obtain ⟨m1, m2, m3, m4, m5, m6, ⟨kp7, h7⟩, ⟨kp8, h8⟩, ⟨pk9, h9⟩, ⟨pk10, h10⟩⟩ :=
        (validateSwapParams_ok_iff p).mp hres
      rcases h with h | h | h | h | h | h | ⟨e, he⟩ | ⟨e, he⟩ | ⟨e, he⟩ | ⟨e, he⟩
      · rw [m1] at h; exact Bool.noConfusion h
      · rw [m2] at h; exact Bool.noConfusion h
      · rw [m3] at h; exact Bool.noConfusion h
      · rw [m4] at h; exact Bool.noConfusion h
      · rw [m5] at h; exact Bool.noConfusion h
      · exact (m6 h).elim
      · rw [h7] at he; exact Except.noConfusion he
      · rw [h8] at he; exact Except.noConfusion he
      · rw [h9] at he; exact Except.noConfusion he
      · rw [h10] at he; exact Except.noConfusion he
  · intro hs
    have h4 : truthyI p.solAmount = false := by rw [hs]; rfl
    unfold validateSwapParams
    by_cases h1 : truthyS p.feeWalletKey = false
    · rw [if_pos h1]; exact ⟨"feeWalletKey", rfl⟩
    · rw [if_neg h1]
      by_cases h2 : truthyS p.assetVaultPubkey = false
      · rw [if_pos h2]; exact ⟨"assetVaultPubkey", rfl⟩
      · rw [if_neg h2]
        by_cases h3 : truthyS p.tokenMint = false
        · rw [if_pos h3]; exact ⟨"tokenMint", rfl⟩
        · rw [if_neg h3, if_pos h4]
          exact ⟨"solAmount", rfl⟩
  · intro hs
    have h4 : truthyI p.solAmount = false := by rw [hs]; rfl
    unfold validateSwapParams
    by_cases h1 : truthyS p.feeWalletKey = false
    · rw [if_pos h1]
      intro heq
      rw [Except.error.injEq] at heq
      exact absurd heq (by decide)
    · rw [if_neg h1]
      by_cases h2 : truthyS p.assetVaultPubkey = false
      · rw [if_pos h2]
        intro heq
        rw [Except.error.injEq] at heq
        exact absurd heq (by decide)
      · rw [if_neg h2]
        by_cases h3 : truthyS p.tokenMint = false
        · rw [if_pos h3]
          intro heq
          rw [Except.error.injEq] at heq
          exact absurd heq (by decide)
        · rw [if_neg h3, if_pos h4]
          intro heq
          rw [Except.error.injEq] at heq
          exact absurd heq (by decide)

/-- C10 witness: with all fields present but `solAmount = 0`, the
missing-parameter branch fires and the positivity message is unreachable. -/
theorem validateSwapParams_spec_witness :
    (∃ f, validateSwapParams ⟨some ("k1"), some ("a1"), some ("m1"), some 0, some ("k2")⟩
        = .error ("Missing required parameter: " ++ f))
      ∧ validateSwapParams ⟨some ("k1"), some ("a1"), some ("m1"), some 0, some ("k2")⟩
        ≠ .error ("SOL amount must be greater than 0") :=
  ⟨(validateSwapParams_spec ⟨some ("k1"), some ("a1"), some ("m1"), some 0, some ("k2")⟩).2.1 rfl,
    (validateSwapParams_spec ⟨some ("k1"), some ("a1"), some ("m1"), some 0, some ("k2")⟩).2.2 rfl⟩

end Spec2Proof
